import Mathlib

/-!
Shallow embedding of the AQO (adaptive query optimization) decision core:
the query classifier / mode state machine of preprocessing.c and the
cardinality-prediction dispatch of cardinality_hooks.c.

External collaborators (the knowledge-base storage engine, the default
estimator, clause extraction and hashing helpers) are modelled as explicit
function parameters or as fields of an explicit state; calls into the
knowledge base are additionally recorded as an event trace so that claims
about which calls happen (and in which order, e.g. under an advisory lock)
can be stated.
-/

namespace Aqo

/-- AQO global mode, mirroring the six-valued aqo_mode GUC
(AQO_MODE_INTELLIGENT, AQO_MODE_FORCED, AQO_MODE_CONTROLLED,
AQO_MODE_FROZEN, AQO_MODE_LEARN, AQO_MODE_DISABLED). -/
inductive AqoMode
| intelligent
| forced
| controlled
| frozen
| learn
| disabled
deriving DecidableEq

/-- Row of the aqo_queries relation as returned by find_query through
query_params[1..4]: learn_aqo, use_aqo, fspace_hash, auto_tuning. -/
structure StoredQuery where
  learn_aqo : Bool
  use_aqo : Bool
  fspace_hash : Int
  auto_tuning : Bool
deriving DecidableEq

/-- The global query_context structure: per-query machine learning settings
resolved by the classifier (preprocessing.c header comment).  The planner
start timestamp is real wall-clock time and is not modelled; planning_time
is kept because disable_aqo_for_query and the profiling block write
sentinel values into it. -/
structure QueryContext where
  query_hash : Int
  learn_aqo : Bool
  use_aqo : Bool
  fspace_hash : Int
  auto_tuning : Bool
  collect_stat : Bool
  adding_query : Bool
  explain_only : Bool
  planning_time : ℚ
deriving DecidableEq

/-- Global state read and mutated by aqo_planner: the GUCs, the backend-local
deactivated-queries deny-list and active-classes list (cur_classes), and the
shared knowledge base mapping a query hash to its stored aqo_queries row.
Modelled from the spec: the deny-list (query_is_deactivated /
add_deactivated_query) and the aqo_queries lookup (find_query / update_query)
live in the storage module, which is not among the given sources; per the
spec they are a membership set keyed by query_hash and a keyed find/upsert
store (is_deactivated, deactivate, find_class, upsert_class). -/
structure AqoState where
  aqo_mode : AqoMode
  force_collect_stat : Bool
  aqo_profile_enable : Bool
  aqo_profile_classes : Bool
  deactivated_queries : List Int
  cur_classes : List Int
  kb_queries : Int → Option StoredQuery

/-- Knowledge-base and lock interactions performed by one aqo_planner call,
in program order. -/
inductive PEvent
| findQuery (query_hash : Int)
| lockAcquire (query_hash : Int)
| updateQuery (query_hash fspace_hash : Int) (learn_aqo use_aqo auto_tuning : Bool)
| addQueryText (query_hash : Int) (text : String)
| lockRelease (query_hash : Int)
| addDeactivated (query_hash : Int)
deriving DecidableEq

/-- Outcome of one aqo_planner call: whether the call took one of the two
early disabled returns (before touching cur_classes or the knowledge base),
the final query_context, the event trace, and the updated global state.
Either way the default planner is called at the end. -/
structure PlannerResult where
  early_exit : Bool
  ctx : QueryContext
  events : List PEvent
  state : AqoState

/-- Mirror of disable_aqo_for_query: turn off all AQO functionality for the
current query.  query_hash and fspace_hash are left untouched. -/
def disable_aqo_for_query (c : QueryContext) : QueryContext :=
  { c with learn_aqo := false, use_aqo := false, auto_tuning := false,
           collect_stat := false, adding_query := false, explain_only := false,
           planning_time := -1 }

/-- Mirror of the new-query-class switch in aqo_planner (the case where
find_query found nothing).  The AQO_MODE_DISABLED arm is unreachable because
aqo_planner skips the knowledge-base lookup in that mode (Assert(0) in the
source); it is rendered as disable_aqo_for_query. -/
def newClassContext (mode : AqoMode) (c : QueryContext) : QueryContext :=
  match mode with
  | AqoMode.intelligent =>
      { c with adding_query := true, learn_aqo := true, use_aqo := false,
               fspace_hash := c.query_hash, auto_tuning := true, collect_stat := true }
  | AqoMode.forced =>
      { c with adding_query := false, learn_aqo := true, use_aqo := true,
               auto_tuning := false, fspace_hash := 0, collect_stat := false }
  | AqoMode.controlled =>
      { c with adding_query := false, learn_aqo := false, use_aqo := false,
               auto_tuning := false, collect_stat := false }
  | AqoMode.frozen =>
      { c with adding_query := false, learn_aqo := false, use_aqo := false,
               auto_tuning := false, collect_stat := false }
  | AqoMode.learn =>
      { c with adding_query := true, learn_aqo := true, use_aqo := true,
               fspace_hash := c.query_hash, auto_tuning := false, collect_stat := true }
  | AqoMode.disabled => disable_aqo_for_query c

/-- Mirror of the stored-class branch header: load the flags of the found
aqo_queries row into query_context; collect_stat is initialized from
auto_tuning. -/
def storedClassContext (row : StoredQuery) (c : QueryContext) : QueryContext :=
  { c with adding_query := false, learn_aqo := row.learn_aqo, use_aqo := row.use_aqo,
           fspace_hash := row.fspace_hash, auto_tuning := row.auto_tuning,
           collect_stat := row.auto_tuning }

/-- Mirror of the second switch of aqo_planner: additional preference changes
for a stored class, based on the AQO mode (frozen suppresses all writings;
learn forces stat collection and fspace_hash = query_hash). -/
def modeAdjustStored (mode : AqoMode) (c : QueryContext) : QueryContext :=
  match mode with
  | AqoMode.frozen =>
      { c with learn_aqo := false, auto_tuning := false, collect_stat := false }
  | AqoMode.learn =>
      { c with collect_stat := true, fspace_hash := c.query_hash }
  | _ => c

/-- Modelled from the spec: query_is_deactivated lives in the storage module,
which is not among the given sources; per the spec (is_deactivated) the
deny-list is a membership set keyed by query_hash. -/
def query_is_deactivated (deactivated_queries : List Int) (query_hash : Int) : Bool :=
  deactivated_queries.contains query_hash

/-- Modelled from the spec: add_deactivated_query lives in the storage
module, which is not among the given sources; per the spec (deactivate) it
permanently adds the query_hash to the deny-list. -/
def add_deactivated_query (deactivated_queries : List Int) (query_hash : Int) :
    List Int :=
  deactivated_queries ++ [query_hash]

/-- Modelled from the spec: update_query lives in the storage module, which
is not among the given sources; per the spec (upsert_class) it is a keyed
upsert into the aqo_queries store. -/
def kb_insert (kb : Int → Option StoredQuery) (qh : Int) (row : StoredQuery) :
    Int → Option StoredQuery :=
  fun h => if h = qh then some row else kb h

@[simp]
theorem query_is_deactivated_eq (d : List Int) (q : Int) :
    query_is_deactivated d q = d.contains q := rfl

@[simp]
theorem add_deactivated_query_eq (d : List Int) (q : Int) :
    add_deactivated_query d q = d ++ [q] := rfl

/-- Mirror of aqo_planner from the label ignore_query_settings to the final
return: the guarded, advisory-locked registration of a new class (update_query
plus, when the query text is not NULL, add_query_text), then the
force_collect_stat override of collect_stat and fspace_hash, then the
profiling override of planning_time. -/
def planner_finish (st : AqoState) (c : QueryContext) (query_is_stored : Bool)
    (events : List PEvent) (query_string : Option String) : PlannerResult :=
  let doInsert := !query_is_stored && (c.adding_query || st.force_collect_stat)
  let regEvents : List PEvent :=
    if doInsert then
      [PEvent.lockAcquire c.query_hash,
       PEvent.updateQuery c.query_hash c.fspace_hash c.learn_aqo c.use_aqo c.auto_tuning] ++
      (match query_string with
       | some s => [PEvent.addQueryText c.query_hash s]
       | none => []) ++
      [PEvent.lockRelease c.query_hash]
    else []
  let newRow : StoredQuery := ⟨c.learn_aqo, c.use_aqo, c.fspace_hash, c.auto_tuning⟩
  let st1 :=
    if doInsert then
      { st with kb_queries := kb_insert st.kb_queries c.query_hash newRow }
    else st
  let c1 :=
    if st1.force_collect_stat then
      { c with collect_stat := true, fspace_hash := c.query_hash }
    else c
  let c2 :=
    if st1.aqo_profile_classes && st1.aqo_profile_enable then
      { c1 with planning_time := 0 }
    else c1
  { early_exit := false, ctx := c2, events := events ++ regEvents, state := st1 }

/-- Mirror of aqo_planner (preprocessing.c).  external_disable collects the
conditions of the first guard that do not depend on the modelled state
(extension absent, non-DML statement, parallel worker, recovery, fdw
application name, system relations); the AQO_MODE_DISABLED clause of that
guard is kept explicit.  query_hash stands for get_query_hash(parse,
query_string); prevCtx is the global query_context left over from the
previous query of this backend. -/
def aqo_planner (st : AqoState) (prevCtx : QueryContext) (external_disable : Bool)
    (query_hash : Int) (query_string : Option String) : PlannerResult :=
  if external_disable ||
     ((st.aqo_mode == AqoMode.disabled) && !st.force_collect_stat &&
      !st.aqo_profile_enable) then
    { early_exit := true, ctx := disable_aqo_for_query prevCtx, events := [], state := st }
  else
    let c0 := { prevCtx with query_hash := query_hash }
    if query_is_deactivated st.deactivated_queries query_hash ||
       st.cur_classes.contains query_hash then
      { early_exit := true, ctx := disable_aqo_for_query c0, events := [], state := st }
    else
      let st1 := { st with cur_classes := st.cur_classes ++ [query_hash] }
      if st1.aqo_mode == AqoMode.disabled then
        planner_finish st1 (disable_aqo_for_query c0) false [] query_string
      else
        match st1.kb_queries query_hash with
        | none =>
            planner_finish st1 (newClassContext st1.aqo_mode c0) false
              [PEvent.findQuery query_hash] query_string
        | some row =>
            let deact := !row.learn_aqo && !row.use_aqo && !row.auto_tuning &&
                         !st1.force_collect_stat
            let st2 :=
              if deact then
                { st1 with deactivated_queries :=
                    add_deactivated_query st1.deactivated_queries query_hash }
              else st1
            let evts := [PEvent.findQuery query_hash] ++
                        (if deact then [PEvent.addDeactivated query_hash] else [])
            planner_finish st2 (modeAdjustStored st1.aqo_mode (storedClassContext row c0))
              true evts query_string

/-- In-progress relation node as seen by the cardinality hooks: the planner
fields the hooks read (baserestrictinfo, the range-table index relid) and the
fields they write (rows, predicted_cardinality, fss_hash).  Clauses are
opaque payloads. -/
structure RelOptInfo where
  baserestrictinfo : List Int
  relid : Int
  rows : ℚ
  predicted_cardinality : ℚ
  fss_hash : Int
deriving DecidableEq

/-- Mirror of the OidIsValid macro: InvalidOid is 0. -/
def OidIsValid (oid : Int) : Bool := oid != 0

/-- Mirror of aqo_set_baserel_rows_estimate (cardinality_hooks.c).  The
external helpers are parameters: get_selectivities and aqo_get_clauses over
the baserestrictinfo list, rt_fetch_relid for
planner_rt_fetch(rel->relid, root)->relid, and predict_for_relation, which
returns the predicted cardinality together with the fss hash it writes
through its out-parameter.  default_rows is the row count the default
estimator (default_set_baserel_rows_estimate) would install. -/
def aqo_set_baserel_rows_estimate
    (query_disabled use_aqo learn_aqo : Bool)
    (get_selectivities : List Int → List ℚ)
    (aqo_get_clauses : List Int → List Int)
    (rt_fetch_relid : Int → Int)
    (predict_for_relation : List Int → List ℚ → List Int → ℚ × Int)
    (default_rows : ℚ)
    (rel : RelOptInfo) : RelOptInfo :=
  if query_disabled then
    { rel with predicted_cardinality := -1, rows := default_rows }
  else
    let selectivities :=
      if use_aqo || learn_aqo then get_selectivities rel.baserestrictinfo else []
    if !use_aqo then
      { rel with predicted_cardinality := -1, rows := default_rows }
    else
      let relid := rt_fetch_relid rel.relid
      let relids := if OidIsValid relid then [relid] else []
      let clauses := aqo_get_clauses rel.baserestrictinfo
      let pr := predict_for_relation clauses selectivities relids
      let rel1 := { rel with fss_hash := pr.2 }
      if pr.1 ≥ 0 then
        { rel1 with rows := pr.1, predicted_cardinality := pr.1 }
      else
        { rel1 with predicted_cardinality := -1, rows := default_rows }

/-- Result of aqo_get_parameterized_baserel_size: the returned size, the two
staging globals predicted_ppi_rows and fss_ppi_hash (left at their previous
values when the hook takes a default-estimator path before the prediction),
and the (clause, selectivity) pairs written into the selectivity cache. -/
structure ParamSizeResult where
  size : ℚ
  predicted_ppi_rows : ℚ
  fss_ppi_hash : Int
  cache_writes : List (Int × ℚ)
deriving DecidableEq

/-- Mirror of aqo_get_parameterized_baserel_size (cardinality_hooks.c).
allclauses concatenates the parameterization clauses with baserestrictinfo;
when use_aqo or learn_aqo is set every (clause, selectivity) pair is cached;
prediction happens only when use_aqo is set, and a negative prediction falls
back to default_get_parameterized_baserel_size (default_size). -/
def aqo_get_parameterized_baserel_size
    (query_disabled use_aqo learn_aqo : Bool)
    (get_selectivities : List Int → List ℚ)
    (aqo_get_clauses : List Int → List Int)
    (rt_fetch_relid : Int → Int)
    (predict_for_relation : List Int → List ℚ → List Int → ℚ × Int)
    (param_clauses : List Int)
    (default_size : ℚ)
    (prev_ppi_rows : ℚ) (prev_fss_ppi : Int)
    (rel : RelOptInfo) : ParamSizeResult :=
  if query_disabled then
    ⟨default_size, prev_ppi_rows, prev_fss_ppi, []⟩
  else
    let allclauses :=
      aqo_get_clauses param_clauses ++ aqo_get_clauses rel.baserestrictinfo
    let selectivities := get_selectivities allclauses
    let relid := rt_fetch_relid rel.relid
    let writes :=
      if use_aqo || learn_aqo then allclauses.zip selectivities else []
    if !use_aqo then
      ⟨default_size, prev_ppi_rows, prev_fss_ppi, writes⟩
    else
      let relids := if OidIsValid relid then [relid] else []
      let pr := predict_for_relation allclauses selectivities relids
      if pr.1 ≥ 0 then
        ⟨pr.1, pr.1, pr.2, writes⟩
      else
        ⟨default_size, pr.1, pr.2, writes⟩

/-- Mirror of aqo_set_joinrel_size_estimates (cardinality_hooks.c).  The
clause and selectivity lists recursively extracted from the children's
cheapest total paths (get_path_clauses) and the joint relid list
(get_list_of_relids) are parameters; restrictlist clauses pass through
aqo_get_clauses and sjinfo-based selectivity extraction
(get_current_selectivities). -/
def aqo_set_joinrel_size_estimates
    (query_disabled use_aqo learn_aqo : Bool)
    (get_current_selectivities : List Int → List ℚ)
    (aqo_get_clauses : List Int → List Int)
    (predict_for_relation : List Int → List ℚ → List Int → ℚ × Int)
    (restrictlist : List Int)
    (relids : List Int)
    (outer_clauses inner_clauses : List Int)
    (outer_selectivities inner_selectivities : List ℚ)
    (default_rows : ℚ)
    (rel : RelOptInfo) : RelOptInfo :=
  if query_disabled then
    { rel with predicted_cardinality := -1, rows := default_rows }
  else
    let current_selectivities :=
      if use_aqo || learn_aqo then get_current_selectivities restrictlist else []
    if !use_aqo then
      { rel with predicted_cardinality := -1, rows := default_rows }
    else
      let allclauses :=
        aqo_get_clauses restrictlist ++ (outer_clauses ++ inner_clauses)
      let selectivities :=
        current_selectivities ++ (outer_selectivities ++ inner_selectivities)
      let pr := predict_for_relation allclauses selectivities relids
      let rel1 := { rel with fss_hash := pr.2 }
      if pr.1 ≥ 0 then
        { rel1 with predicted_cardinality := pr.1, rows := pr.1 }
      else
        { rel1 with predicted_cardinality := -1, rows := default_rows }

/-- Mirror of aqo_get_parameterized_joinrel_size (cardinality_hooks.c):
identical dispatch to the plain join case, but returning the size and
staging the prediction into predicted_ppi_rows / fss_ppi_hash.  This hook
performs no selectivity-cache writes. -/
def aqo_get_parameterized_joinrel_size
    (query_disabled use_aqo learn_aqo : Bool)
    (get_current_selectivities : List Int → List ℚ)
    (aqo_get_clauses : List Int → List Int)
    (predict_for_relation : List Int → List ℚ → List Int → ℚ × Int)
    (clauses : List Int)
    (relids : List Int)
    (outer_clauses inner_clauses : List Int)
    (outer_selectivities inner_selectivities : List ℚ)
    (default_size : ℚ)
    (prev_ppi_rows : ℚ) (prev_fss_ppi : Int) : ParamSizeResult :=
  if query_disabled then
    ⟨default_size, prev_ppi_rows, prev_fss_ppi, []⟩
  else
    let current_selectivities :=
      if use_aqo || learn_aqo then get_current_selectivities clauses else []
    if !use_aqo then
      ⟨default_size, prev_ppi_rows, prev_fss_ppi, []⟩
    else
      let allclauses :=
        aqo_get_clauses clauses ++ (outer_clauses ++ inner_clauses)
      let selectivities :=
        current_selectivities ++ (outer_selectivities ++ inner_selectivities)
      let pr := predict_for_relation allclauses selectivities relids
      if pr.1 ≥ 0 then
        ⟨pr.1, pr.1, pr.2, []⟩
      else
        ⟨default_size, pr.1, pr.2, []⟩

/-- Mirror of predict_num_groups (cardinality_hooks.c).  Stored targets are
real numbers (log-space doubles in the source); load_fss is the external
lookup returning the single stored target for (fspace_hash, fss), or none.
If the subpath's parent relation carries a positive predicted cardinality
its fss_hash is reused as the child fss; otherwise the child fss is the one
predict_for_relation computes from the child path's clauses, selectivities
and relids (child_predicted_fss).  get_grouped_exprs_hash combines the
child fss with the grouping expressions.  The result pairs the prediction
(negative means refusal) with the grouped fss written through the
out-parameter. -/
noncomputable def predict_num_groups
    (parent_predicted_cardinality : ℝ) (parent_fss_hash : Int)
    (child_predicted_fss : Int)
    (get_grouped_exprs_hash : Int → List Int → Int)
    (group_exprs : List Int)
    (fspace_hash : Int)
    (load_fss : Int → Int → Option ℝ) : ℝ × Int :=
  let child_fss :=
    if parent_predicted_cardinality > 0 then parent_fss_hash
    else child_predicted_fss
  let fss := get_grouped_exprs_hash child_fss group_exprs
  match load_fss fspace_hash fss with
  | none => (-1, fss)
  | some target =>
      let prediction := Real.exp target
      (if prediction ≤ 0 then -1 else prediction, fss)

/-- Recognizer for knowledge-base class-row insertion events (update_query
calls) in a planner event trace. -/
def isUpdateQuery : PEvent → Bool
  | PEvent.updateQuery _ _ _ _ _ => true
  | _ => false

/-- Recognizer for query-text insertion events (add_query_text calls) in a
planner event trace. -/
def isAddQueryText : PEvent → Bool
  | PEvent.addQueryText _ _ => true
  | _ => false

/-- Recognizer for knowledge-base lookup events (find_query calls) in a
planner event trace. -/
def isFindQuery : PEvent → Bool
  | PEvent.findQuery _ => true
  | _ => false

@[simp]
theorem disable_aqo_for_query_query_hash (c : QueryContext) :
    (disable_aqo_for_query c).query_hash = c.query_hash := rfl

@[simp]
theorem disable_aqo_for_query_adding_query (c : QueryContext) :
    (disable_aqo_for_query c).adding_query = false := rfl

@[simp]
theorem disable_aqo_for_query_learn_aqo (c : QueryContext) :
    (disable_aqo_for_query c).learn_aqo = false := rfl

@[simp]
theorem disable_aqo_for_query_use_aqo (c : QueryContext) :
    (disable_aqo_for_query c).use_aqo = false := rfl

@[simp]
theorem storedClassContext_query_hash (row : StoredQuery) (c : QueryContext) :
    (storedClassContext row c).query_hash = c.query_hash := rfl

@[simp]
theorem storedClassContext_adding_query (row : StoredQuery) (c : QueryContext) :
    (storedClassContext row c).adding_query = false := rfl

@[simp]
theorem modeAdjustStored_query_hash (m : AqoMode) (c : QueryContext) :
    (modeAdjustStored m c).query_hash = c.query_hash := by
  cases m <;> rfl

@[simp]
theorem modeAdjustStored_adding_query (m : AqoMode) (c : QueryContext) :
    (modeAdjustStored m c).adding_query = c.adding_query := by
  cases m <;> rfl

@[simp]
theorem newClassContext_query_hash (m : AqoMode) (c : QueryContext) :
    (newClassContext m c).query_hash = c.query_hash := by
  cases m <;> rfl

@[simp]
theorem planner_finish_ctx_adding_query (st : AqoState) (c : QueryContext)
    (q : Bool) (e : List PEvent) (qs : Option String) :
    (planner_finish st c q e qs).ctx.adding_query = c.adding_query := by
  simp [planner_finish, apply_ite QueryContext.adding_query]

theorem planner_finish_events (st : AqoState) (c : QueryContext)
    (q : Bool) (e : List PEvent) (qs : Option String) :
    (planner_finish st c q e qs).events =
      e ++ (if (!q && (c.adding_query || st.force_collect_stat)) = true then
        [PEvent.lockAcquire c.query_hash,
         PEvent.updateQuery c.query_hash c.fspace_hash c.learn_aqo c.use_aqo
           c.auto_tuning] ++
        (match qs with
         | some s => [PEvent.addQueryText c.query_hash s]
         | none => []) ++
        [PEvent.lockRelease c.query_hash]
      else []) := rfl

/-- C1: at each of the four cardinality estimation entry points, with the
query enabled for prediction (not disabled, use_aqo set), a prediction
returned by predict_for_relation is adopted as the relation's row count iff
it is nonnegative; a negative prediction is never adopted — the hook falls
back to the default estimator's value and records predicted_cardinality = -1
(for the two in-place hooks). -/
theorem c1_negative_prediction_never_adopted
    (learn_aqo : Bool)
    (gs : List Int → List ℚ) (gc : List Int → List Int) (rt : Int → Int)
    (P : List Int → List ℚ → List Int → ℚ × Int)
    (dr : ℚ) (pp : ℚ) (pf : Int) (rel : RelOptInfo)
    (param_clauses restrictlist jclauses relids oc ic : List Int)
    (os isel : List ℚ)
    (p1 p2 p3 p4 : ℚ) (f1 f2 f3 f4 : Int)
    (h1 : P (gc rel.baserestrictinfo) (gs rel.baserestrictinfo)
           (if OidIsValid (rt rel.relid) then [rt rel.relid] else []) = (p1, f1))
    (h2 : P (gc param_clauses ++ gc rel.baserestrictinfo)
           (gs (gc param_clauses ++ gc rel.baserestrictinfo))
           (if OidIsValid (rt rel.relid) then [rt rel.relid] else []) = (p2, f2))
    (h3 : P (gc restrictlist ++ (oc ++ ic)) (gs restrictlist ++ (os ++ isel))
           relids = (p3, f3))
    (h4 : P (gc jclauses ++ (oc ++ ic)) (gs jclauses ++ (os ++ isel))
           relids = (p4, f4)) :
    ((0 ≤ p1 →
       (aqo_set_baserel_rows_estimate false true learn_aqo gs gc rt P dr rel).rows = p1 ∧
       (aqo_set_baserel_rows_estimate false true learn_aqo gs gc rt P dr rel).predicted_cardinality = p1) ∧
     (p1 < 0 →
       (aqo_set_baserel_rows_estimate false true learn_aqo gs gc rt P dr rel).rows = dr ∧
       (aqo_set_baserel_rows_estimate false true learn_aqo gs gc rt P dr rel).predicted_cardinality = -1)) ∧
    ((0 ≤ p2 →
       (aqo_get_parameterized_baserel_size false true learn_aqo gs gc rt P
          param_clauses dr pp pf rel).size = p2) ∧
     (p2 < 0 →
       (aqo_get_parameterized_baserel_size false true learn_aqo gs gc rt P
          param_clauses dr pp pf rel).size = dr)) ∧
    ((0 ≤ p3 →
       (aqo_set_joinrel_size_estimates false true learn_aqo gs gc P restrictlist
          relids oc ic os isel dr rel).rows = p3 ∧
       (aqo_set_joinrel_size_estimates false true learn_aqo gs gc P restrictlist
          relids oc ic os isel dr rel).predicted_cardinality = p3) ∧
     (p3 < 0 →
       (aqo_set_joinrel_size_estimates false true learn_aqo gs gc P restrictlist
          relids oc ic os isel dr rel).rows = dr ∧
       (aqo_set_joinrel_size_estimates false true learn_aqo gs gc P restrictlist
          relids oc ic os isel dr rel).predicted_cardinality = -1)) ∧
    ((0 ≤ p4 →
       (aqo_get_parameterized_joinrel_size false true learn_aqo gs gc P jclauses
          relids oc ic os isel dr pp pf).size = p4) ∧
     (p4 < 0 →
       (aqo_get_parameterized_joinrel_size false true learn_aqo gs gc P jclauses
          relids oc ic os isel dr pp pf).size = dr)) := by
  refine ⟨⟨?_, ?_⟩, ⟨?_, ?_⟩, ⟨?_, ?_⟩, ⟨?_, ?_⟩⟩ <;> intro hp
  · simp [aqo_set_baserel_rows_estimate, h1, if_pos hp.ge]
  · simp [aqo_set_baserel_rows_estimate, h1, if_neg (not_le.mpr hp)]
  · simp [aqo_get_parameterized_baserel_size, h2, if_pos hp.ge]
  · simp [aqo_get_parameterized_baserel_size, h2, if_neg (not_le.mpr hp)]
  · simp [aqo_set_joinrel_size_estimates, h3, if_pos hp.ge]
  · simp [aqo_set_joinrel_size_estimates, h3, if_neg (not_le.mpr hp)]
  · simp [aqo_get_parameterized_joinrel_size, h4, if_pos hp.ge]
  · simp [aqo_get_parameterized_joinrel_size, h4, if_neg (not_le.mpr hp)]

/-- Witness for C1 at a concrete input: a predictor that always returns the
refusal value -3 with fss 9, on a relation with one clause; all four hooks
return the default value 100. -/
theorem c1_negative_prediction_never_adopted_witness :
    (aqo_set_baserel_rows_estimate false true false (fun _ => []) id id
       (fun _ _ _ => ((-3 : ℚ), (9 : Int))) 100
       ⟨[2], 4, 7, 7, 0⟩).rows = 100 ∧
    (aqo_get_parameterized_baserel_size false true false (fun _ => []) id id
       (fun _ _ _ => ((-3 : ℚ), (9 : Int))) [3] 100 0 0
       ⟨[2], 4, 7, 7, 0⟩).size = 100 ∧
    (aqo_set_joinrel_size_estimates false true false (fun _ => []) id
       (fun _ _ _ => ((-3 : ℚ), (9 : Int))) [3] [4, 5] [] [] [] [] 100
       ⟨[2], 4, 7, 7, 0⟩).rows = 100 ∧
    (aqo_get_parameterized_joinrel_size false true false (fun _ => []) id
       (fun _ _ _ => ((-3 : ℚ), (9 : Int))) [3] [4, 5] [] [] [] [] 100 0 0).size = 100 := by
  have h := c1_negative_prediction_never_adopted false (fun _ => []) id id
    (fun _ _ _ => ((-3 : ℚ), (9 : Int))) 100 0 0 ⟨[2], 4, 7, 7, 0⟩
    [3] [3] [3] [4, 5] [] [] [] []
    (-3) (-3) (-3) (-3) 9 9 9 9 rfl rfl rfl rfl
  exact ⟨(h.1.2 (by norm_num)).1, h.2.1.2 (by norm_num),
         (h.2.2.1.2 (by norm_num)).1, h.2.2.2.2 (by norm_num)⟩

/-- C8: the base-relation row estimation hook is deterministic and
idempotent: with identical inputs (query context, helper functions,
predictor, default estimate, relation) it produces the same output relation
— in particular the same predicted estimate and the same fss signature —
and running the hook again on the relation it produced changes nothing,
because the hook reads only baserestrictinfo and relid, which it never
writes. -/
theorem c8_baserel_estimate_idempotent
    (query_disabled use_aqo learn_aqo : Bool)
    (gs : List Int → List ℚ) (gc : List Int → List Int) (rt : Int → Int)
    (P : List Int → List ℚ → List Int → ℚ × Int)
    (dr : ℚ) (rel : RelOptInfo) :
    aqo_set_baserel_rows_estimate query_disabled use_aqo learn_aqo gs gc rt P dr rel =
      aqo_set_baserel_rows_estimate query_disabled use_aqo learn_aqo gs gc rt P dr rel ∧
    aqo_set_baserel_rows_estimate query_disabled use_aqo learn_aqo gs gc rt P dr
      (aqo_set_baserel_rows_estimate query_disabled use_aqo learn_aqo gs gc rt P dr rel) =
      aqo_set_baserel_rows_estimate query_disabled use_aqo learn_aqo gs gc rt P dr rel := by
  refine ⟨rfl, ?_⟩
  cases query_disabled with
  | true => rfl
  | false =>
    cases use_aqo with
    | false => rfl
    | true =>
      rcases le_or_lt 0 (P (gc rel.baserestrictinfo) (gs rel.baserestrictinfo)
          (if OidIsValid (rt rel.relid) then [rt rel.relid] else [])).1 with hge | hlt
      · have h1 : aqo_set_baserel_rows_estimate false true learn_aqo gs gc rt P dr rel =
            { rel with
              fss_hash := (P (gc rel.baserestrictinfo) (gs rel.baserestrictinfo)
                (if OidIsValid (rt rel.relid) then [rt rel.relid] else [])).2,
              rows := (P (gc rel.baserestrictinfo) (gs rel.baserestrictinfo)
                (if OidIsValid (rt rel.relid) then [rt rel.relid] else [])).1,
              predicted_cardinality := (P (gc rel.baserestrictinfo) (gs rel.baserestrictinfo)
                (if OidIsValid (rt rel.relid) then [rt rel.relid] else [])).1 } := by
          simp [aqo_set_baserel_rows_estimate, if_pos hge]
        rw [h1]
        simp [aqo_set_baserel_rows_estimate, if_pos hge]
      · have h1 : aqo_set_baserel_rows_estimate false true learn_aqo gs gc rt P dr rel =
            { rel with
              fss_hash := (P (gc rel.baserestrictinfo) (gs rel.baserestrictinfo)
                (if OidIsValid (rt rel.relid) then [rt rel.relid] else [])).2,
              predicted_cardinality := -1,
              rows := dr } := by
          simp [aqo_set_baserel_rows_estimate, if_neg (not_le.mpr hlt)]
        rw [h1]
        simp [aqo_set_baserel_rows_estimate, if_neg (not_le.mpr hlt)]

/-- C3: when the computed query_hash is on the deactivated deny-list or is
already a member of the backend's active-classes list (cur_classes), the
classifier disables AQO for this query (all behavior flags false) and
immediately delegates to the default planner: it performs no knowledge-base
interaction at all (empty event trace, so in particular no find_query and no
registration) and leaves the global state untouched, so no prediction can
happen in this planning pass. -/
theorem c3_deactivated_or_active_class_short_circuits
    (st : AqoState) (prevCtx : QueryContext) (external_disable : Bool)
    (query_hash : Int) (query_string : Option String)
    (h1 : (external_disable ||
           ((st.aqo_mode == AqoMode.disabled) && !st.force_collect_stat &&
            !st.aqo_profile_enable)) = false)
    (h2 : (st.deactivated_queries.contains query_hash ||
           st.cur_classes.contains query_hash) = true) :
    aqo_planner st prevCtx external_disable query_hash query_string =
      { early_exit := true,
        ctx := disable_aqo_for_query { prevCtx with query_hash := query_hash },
        events := [], state := st } ∧
    (aqo_planner st prevCtx external_disable query_hash query_string).ctx.use_aqo = false ∧
    (aqo_planner st prevCtx external_disable query_hash query_string).ctx.learn_aqo = false ∧
    (aqo_planner st prevCtx external_disable query_hash query_string).ctx.collect_stat = false ∧
    (aqo_planner st prevCtx external_disable query_hash query_string).ctx.adding_query = false := by
  have h : aqo_planner st prevCtx external_disable query_hash query_string =
      { early_exit := true,
        ctx := disable_aqo_for_query { prevCtx with query_hash := query_hash },
        events := [], state := st } := by
    simp only [aqo_planner, h1, Bool.false_eq_true, if_false]
    simp at h2
    simp [h2]
  exact ⟨h, by rw [h]; rfl, by rw [h]; rfl, by rw [h]; rfl, by rw [h]; rfl⟩

/-- Witness for C3: a concrete state whose deny-list holds query hash 7; the
planner call exits early with an empty event trace. -/
theorem c3_deactivated_or_active_class_short_circuits_witness :
    (aqo_planner
      ⟨AqoMode.learn, false, false, false, [7], [], fun _ => none⟩
      ⟨0, false, false, 0, false, false, false, false, 0⟩
      false 7 (some "q")).events = [] ∧
    (aqo_planner
      ⟨AqoMode.learn, false, false, false, [7], [], fun _ => none⟩
      ⟨0, false, false, 0, false, false, false, false, 0⟩
      false 7 (some "q")).early_exit = true := by
  have h := c3_deactivated_or_active_class_short_circuits
    ⟨AqoMode.learn, false, false, false, [7], [], fun _ => none⟩
    ⟨0, false, false, 0, false, false, false, false, 0⟩
    false 7 (some "q") (by decide) (by decide)
  exact ⟨by rw [h.1], by rw [h.1]⟩

/-- C10: whenever the planner call does not take one of the two early
disabled exits, force_collect_stat = true makes the final resolved context
carry collect_stat = true and fspace_hash = query_hash, in every mode and
regardless of whether the class was stored. -/
theorem c10_force_collect_stat_overrides
    (st : AqoState) (prevCtx : QueryContext) (external_disable : Bool)
    (query_hash : Int) (query_string : Option String)
    (h1 : (external_disable ||
           ((st.aqo_mode == AqoMode.disabled) && !st.force_collect_stat &&
            !st.aqo_profile_enable)) = false)
    (h2 : (st.deactivated_queries.contains query_hash ||
           st.cur_classes.contains query_hash) = false)
    (hf : st.force_collect_stat = true) :
    (aqo_planner st prevCtx external_disable query_hash query_string).early_exit = false ∧
    (aqo_planner st prevCtx external_disable query_hash query_string).ctx.collect_stat = true ∧
    (aqo_planner st prevCtx external_disable query_hash query_string).ctx.fspace_hash = query_hash := by
  simp at h2
  simp only [aqo_planner, h1, Bool.false_eq_true, if_false]
  rcases hmode : ({ st with cur_classes := st.cur_classes ++ [query_hash] } :
      AqoState).aqo_mode == AqoMode.disabled with _ | _
  · simp only [hmode, Bool.false_eq_true, if_false]
    rcases hkb : ({ st with cur_classes := st.cur_classes ++ [query_hash] } :
        AqoState).kb_queries query_hash with _ | row
    · simp [planner_finish, hf, h2.1, h2.2, apply_ite QueryContext.collect_stat,
            apply_ite QueryContext.fspace_hash]
    · simp [planner_finish, hf, h2.1, h2.2, apply_ite QueryContext.collect_stat,
            apply_ite QueryContext.fspace_hash]
  · simp [hmode, planner_finish, hf, h2.1, h2.2,
          apply_ite QueryContext.collect_stat, apply_ite QueryContext.fspace_hash]

/-- Witness for C10: frozen mode, stored class with collect-suppressing
flags, force_collect_stat on; the final context still collects statistics
into the feature space of the query hash. -/
theorem c10_force_collect_stat_overrides_witness :
    (aqo_planner
      ⟨AqoMode.frozen, true, false, false, [], [],
        fun _ => some ⟨true, true, 5, false⟩⟩
      ⟨0, false, false, 0, false, false, false, false, 0⟩
      false 7 none).ctx.collect_stat = true ∧
    (aqo_planner
      ⟨AqoMode.frozen, true, false, false, [], [],
        fun _ => some ⟨true, true, 5, false⟩⟩
      ⟨0, false, false, 0, false, false, false, false, 0⟩
      false 7 none).ctx.fspace_hash = 7 := by
  have h := c10_force_collect_stat_overrides
    ⟨AqoMode.frozen, true, false, false, [], [],
      fun _ => some ⟨true, true, 5, false⟩⟩
    ⟨0, false, false, 0, false, false, false, false, 0⟩
    false 7 none (by decide) (by decide) (by decide)
  exact ⟨h.2.1, h.2.2⟩

/-- C2: for a new query class (not found in the knowledge base), with
force_collect_stat off, the classifier resolves the behavior flags exactly
per the mode table: Intelligent gives learn, not use, auto-tune, collect,
fspace_hash = query_hash; Forced gives learn, use, no auto-tune, no
collect, fspace_hash = 0; Controlled and Frozen give all four flags false;
Learn gives learn, use, no auto-tune, collect, fspace_hash = query_hash. -/
theorem c2_new_class_mode_table
    (st : AqoState) (prevCtx : QueryContext) (external_disable : Bool)
    (query_hash : Int) (query_string : Option String)
    (h1 : (external_disable ||
           ((st.aqo_mode == AqoMode.disabled) && !st.force_collect_stat &&
            !st.aqo_profile_enable)) = false)
    (h2 : (st.deactivated_queries.contains query_hash ||
           st.cur_classes.contains query_hash) = false)
    (h3 : st.kb_queries query_hash = none)
    (h4 : st.force_collect_stat = false) :
    (st.aqo_mode = AqoMode.intelligent →
      (aqo_planner st prevCtx external_disable query_hash query_string).ctx.learn_aqo = true ∧
      (aqo_planner st prevCtx external_disable query_hash query_string).ctx.use_aqo = false ∧
      (aqo_planner st prevCtx external_disable query_hash query_string).ctx.auto_tuning = true ∧
      (aqo_planner st prevCtx external_disable query_hash query_string).ctx.collect_stat = true ∧
      (aqo_planner st prevCtx external_disable query_hash query_string).ctx.fspace_hash = query_hash) ∧
    (st.aqo_mode = AqoMode.forced →
      (aqo_planner st prevCtx external_disable query_hash query_string).ctx.learn_aqo = true ∧
      (aqo_planner st prevCtx external_disable query_hash query_string).ctx.use_aqo = true ∧
      (aqo_planner st prevCtx external_disable query_hash query_string).ctx.auto_tuning = false ∧
      (aqo_planner st prevCtx external_disable query_hash query_string).ctx.collect_stat = false ∧
      (aqo_planner st prevCtx external_disable query_hash query_string).ctx.fspace_hash = 0) ∧
    (st.aqo_mode = AqoMode.controlled →
      (aqo_planner st prevCtx external_disable query_hash query_string).ctx.learn_aqo = false ∧
      (aqo_planner st prevCtx external_disable query_hash query_string).ctx.use_aqo = false ∧
      (aqo_planner st prevCtx external_disable query_hash query_string).ctx.auto_tuning = false ∧
      (aqo_planner st prevCtx external_disable query_hash query_string).ctx.collect_stat = false) ∧
    (st.aqo_mode = AqoMode.frozen →
      (aqo_planner st prevCtx external_disable query_hash query_string).ctx.learn_aqo = false ∧
      (aqo_planner st prevCtx external_disable query_hash query_string).ctx.use_aqo = false ∧
      (aqo_planner st prevCtx external_disable query_hash query_string).ctx.auto_tuning = false ∧
      (aqo_planner st prevCtx external_disable query_hash query_string).ctx.collect_stat = false) ∧
    (st.aqo_mode = AqoMode.learn →
      (aqo_planner st prevCtx external_disable query_hash query_string).ctx.learn_aqo = true ∧
      (aqo_planner st prevCtx external_disable query_hash query_string).ctx.use_aqo = true ∧
      (aqo_planner st prevCtx external_disable query_hash query_string).ctx.auto_tuning = false ∧
      (aqo_planner st prevCtx external_disable query_hash query_string).ctx.collect_stat = true ∧
      (aqo_planner st prevCtx external_disable query_hash query_string).ctx.fspace_hash = query_hash) := by
  simp at h1 h2
  refine ⟨?_, ?_, ?_, ?_, ?_⟩ <;> intro hm <;>
    simp [aqo_planner, planner_finish, newClassContext, h1.1, h2.1, h2.2, h3, h4, hm,
          apply_ite QueryContext.learn_aqo, apply_ite QueryContext.use_aqo,
          apply_ite QueryContext.auto_tuning, apply_ite QueryContext.collect_stat,
          apply_ite QueryContext.fspace_hash]

/-- Witness for C2: learn mode over an empty knowledge base resolves a new
class to learn, use, no auto-tune, collect, fspace_hash = query hash. -/
theorem c2_new_class_mode_table_witness :
    (aqo_planner
      ⟨AqoMode.learn, false, false, false, [], [], fun _ => none⟩
      ⟨0, false, false, 3, false, false, false, false, 0⟩
      false 7 (some "q")).ctx.learn_aqo = true ∧
    (aqo_planner
      ⟨AqoMode.learn, false, false, false, [], [], fun _ => none⟩
      ⟨0, false, false, 3, false, false, false, false, 0⟩
      false 7 (some "q")).ctx.use_aqo = true ∧
    (aqo_planner
      ⟨AqoMode.learn, false, false, false, [], [], fun _ => none⟩
      ⟨0, false, false, 3, false, false, false, false, 0⟩
      false 7 (some "q")).ctx.auto_tuning = false ∧
    (aqo_planner
      ⟨AqoMode.learn, false, false, false, [], [], fun _ => none⟩
      ⟨0, false, false, 3, false, false, false, false, 0⟩
      false 7 (some "q")).ctx.collect_stat = true ∧
    (aqo_planner
      ⟨AqoMode.learn, false, false, false, [], [], fun _ => none⟩
      ⟨0, false, false, 3, false, false, false, false, 0⟩
      false 7 (some "q")).ctx.fspace_hash = 7 :=
  (c2_new_class_mode_table
    ⟨AqoMode.learn, false, false, false, [], [], fun _ => none⟩
    ⟨0, false, false, 3, false, false, false, false, 0⟩
    false 7 (some "q") (by decide) (by decide) rfl rfl).2.2.2.2 rfl

/-- C4: a stored query class whose learn, use and auto-tune flags are all
false is permanently deny-listed when force_collect_stat is off: the
classifier emits add_deactivated_query for its hash, the resulting state
has the hash on the deny-list, and a subsequent planner call for the same
hash takes the early disabled exit without any knowledge-base lookup. -/
theorem c4_all_false_stored_class_gets_deny_listed
    (st : AqoState) (prevCtx prevCtx2 : QueryContext) (external_disable : Bool)
    (query_hash : Int) (query_string query_string2 : Option String)
    (row : StoredQuery)
    (h1 : (external_disable ||
           ((st.aqo_mode == AqoMode.disabled) && !st.force_collect_stat &&
            !st.aqo_profile_enable)) = false)
    (h2 : (st.deactivated_queries.contains query_hash ||
           st.cur_classes.contains query_hash) = false)
    (hm : (st.aqo_mode == AqoMode.disabled) = false)
    (h3 : st.kb_queries query_hash = some row)
    (h4 : row.learn_aqo = false) (h5 : row.use_aqo = false)
    (h6 : row.auto_tuning = false)
    (h7 : st.force_collect_stat = false) :
    PEvent.addDeactivated query_hash ∈
      (aqo_planner st prevCtx external_disable query_hash query_string).events ∧
    (aqo_planner st prevCtx external_disable query_hash
        query_string).state.deactivated_queries.contains query_hash = true ∧
    (aqo_planner
        (aqo_planner st prevCtx external_disable query_hash query_string).state
        prevCtx2 false query_hash query_string2).early_exit = true ∧
    (aqo_planner
        (aqo_planner st prevCtx external_disable query_hash query_string).state
        prevCtx2 false query_hash query_string2).events = [] := by
  simp at h1 h2
  have hm2 : ¬st.aqo_mode = AqoMode.disabled := by simpa using hm
  have hst : (aqo_planner st prevCtx external_disable query_hash query_string).state =
      { st with cur_classes := st.cur_classes ++ [query_hash],
                deactivated_queries := st.deactivated_queries ++ [query_hash] } := by
    simp [aqo_planner, planner_finish, h1.1, h2.1, h2.2, h3, h4, h5, h6, h7, hm2]
  refine ⟨?_, ?_, ?_, ?_⟩
  · simp [aqo_planner, planner_finish, h1.1, h2.1, h2.2, h3, h4, h5, h6, h7, hm2]
  · rw [hst]
    simp
  · rw [hst]
    simp [aqo_planner, hm2]
  · rw [hst]
    simp [aqo_planner, hm2]

/-- Witness for C4: intelligent mode, hash 7 stored with all-false flags;
the first call deny-lists 7 and the second call exits early with no
events. -/
theorem c4_all_false_stored_class_gets_deny_listed_witness :
    PEvent.addDeactivated 7 ∈
      (aqo_planner
        ⟨AqoMode.intelligent, false, false, false, [], [],
          fun _ => some ⟨false, false, 4, false⟩⟩
        ⟨0, false, false, 3, false, false, false, false, 0⟩
        false 7 (some "q")).events ∧
    (aqo_planner
        (aqo_planner
          ⟨AqoMode.intelligent, false, false, false, [], [],
            fun _ => some ⟨false, false, 4, false⟩⟩
          ⟨0, false, false, 3, false, false, false, false, 0⟩
          false 7 (some "q")).state
        ⟨0, false, false, 3, false, false, false, false, 0⟩
        false 7 none).events = [] := by
  have h := c4_all_false_stored_class_gets_deny_listed
    ⟨AqoMode.intelligent, false, false, false, [], [],
      fun _ => some ⟨false, false, 4, false⟩⟩
    ⟨0, false, false, 3, false, false, false, false, 0⟩
    ⟨0, false, false, 3, false, false, false, false, 0⟩
    false 7 (some "q") none ⟨false, false, 4, false⟩
    (by decide) (by decide) (by decide) rfl rfl rfl rfl rfl
  exact ⟨h.1, h.2.2.2⟩

theorem planner_finish_any_update (st : AqoState) (c : QueryContext)
    (q : Bool) (e : List PEvent) (qs : Option String)
    (he : e.any isUpdateQuery = false) :
    ((planner_finish st c q e qs).events.any isUpdateQuery = true) ↔
      (q = false ∧ (c.adding_query = true ∨ st.force_collect_stat = true)) := by
  rw [planner_finish_events, List.any_append, he]
  cases hc : (!q && (c.adding_query || st.force_collect_stat))
  · simp only [Bool.false_eq_true, if_false]
    simp at hc ⊢
    exact hc
  · simp only [if_pos rfl]
    simp [isUpdateQuery] at hc ⊢
    rcases qs with _ | s <;> simp [isUpdateQuery, hc]

theorem planner_finish_lock_bracket (st : AqoState) (c : QueryContext)
    (q : Bool) (e : List PEvent) (qs : Option String)
    (hc : (!q && (c.adding_query || st.force_collect_stat)) = true) :
    ∃ pre fsp l u a,
      (planner_finish st c q e qs).events =
        pre ++ [PEvent.lockAcquire c.query_hash,
                PEvent.updateQuery c.query_hash fsp l u a] ++
        (match qs with
         | some s => [PEvent.addQueryText c.query_hash s]
         | none => []) ++
        [PEvent.lockRelease c.query_hash] := by
  refine ⟨e, c.fspace_hash, c.learn_aqo, c.use_aqo, c.auto_tuning, ?_⟩
  rw [planner_finish_events, if_pos hc]
  rcases qs with _ | s <;> simp

/-- C5 as stated is false on the code: in Forced mode a brand-new class
resolves with learn_aqo = true, yet no class row is inserted (adding_query,
not learn_aqo, gates the insert, and Forced leaves adding_query false).
Concrete refutation: Forced mode, force_collect_stat off, empty knowledge
base, query hash 7 with query text present — learning is enabled and the
class is not stored, but the event trace holds no update_query call, so the
claimed insert-iff-(not stored and (learn or force)) equivalence fails. -/
theorem c5_insert_iff_learning_counterexample :
    ¬(((aqo_planner
        ⟨AqoMode.forced, false, false, false, [], [], fun _ => none⟩
        ⟨0, false, false, 3, false, false, false, false, 0⟩
        false 7 (some "q")).events.any isUpdateQuery = true) ↔
      ((⟨AqoMode.forced, false, false, false, [], [], fun _ => none⟩ :
          AqoState).kb_queries 7 = none ∧
       ((aqo_planner
          ⟨AqoMode.forced, false, false, false, [], [], fun _ => none⟩
          ⟨0, false, false, 3, false, false, false, false, 0⟩
          false 7 (some "q")).ctx.learn_aqo = true ∨
        (⟨AqoMode.forced, false, false, false, [], [], fun _ => none⟩ :
          AqoState).force_collect_stat = true))) := by
  decide

/-- C5 amended: the classifier inserts a class row (and, when query text is
available, the query text) into the knowledge base iff the class was not
found stored (the lookup was skipped in Disabled mode or returned nothing)
and (the classifier marked the class for addition — adding_query, set only
by the Intelligent and Learn new-class arms — or collection is forced); and
whenever the insert happens it sits between an exclusive advisory lock
acquire and release keyed by the query_hash, with the query text stored
right after the class row exactly when the text is present. -/
theorem c5_insert_iff_adding_query_under_lock
    (st : AqoState) (prevCtx : QueryContext) (external_disable : Bool)
    (query_hash : Int) (query_string : Option String)
    (h1 : (external_disable ||
           ((st.aqo_mode == AqoMode.disabled) && !st.force_collect_stat &&
            !st.aqo_profile_enable)) = false)
    (h2 : (st.deactivated_queries.contains query_hash ||
           st.cur_classes.contains query_hash) = false) :
    (((aqo_planner st prevCtx external_disable query_hash query_string).events.any
        isUpdateQuery = true) ↔
      ((st.aqo_mode = AqoMode.disabled ∨ st.kb_queries query_hash = none) ∧
       ((aqo_planner st prevCtx external_disable query_hash
           query_string).ctx.adding_query = true ∨
        st.force_collect_stat = true))) ∧
    ((aqo_planner st prevCtx external_disable query_hash query_string).events.any
        isUpdateQuery = true →
      ∃ pre fsp l u a,
        (aqo_planner st prevCtx external_disable query_hash query_string).events =
          pre ++ [PEvent.lockAcquire query_hash,
                  PEvent.updateQuery query_hash fsp l u a] ++
          (match query_string with
           | some s => [PEvent.addQueryText query_hash s]
           | none => []) ++
          [PEvent.lockRelease query_hash]) := by
  simp at h1 h2
  by_cases hd : st.aqo_mode = AqoMode.disabled
  · have hR : aqo_planner st prevCtx external_disable query_hash query_string =
        planner_finish { st with cur_classes := st.cur_classes ++ [query_hash] }
          (disable_aqo_for_query { prevCtx with query_hash := query_hash })
          false [] query_string := by
      simp [aqo_planner, h1.1, h2.1, h2.2, hd]
      intro hf hp
      rw [h1.2 hd hf] at hp
      simp at hp
    have hupd := planner_finish_any_update
      { st with cur_classes := st.cur_classes ++ [query_hash] }
      (disable_aqo_for_query { prevCtx with query_hash := query_hash })
      false [] query_string (by simp)
    rw [hR]
    constructor
    · rw [hupd]
      simp [hd]
    · intro hins
      rw [hupd] at hins
      rcases hins.2 with h | h
      · simp at h
      · have hf : st.force_collect_stat = true := by simpa using h
        have hc : (!false && ((disable_aqo_for_query { prevCtx with
            query_hash := query_hash }).adding_query ||
            ({ st with cur_classes := st.cur_classes ++ [query_hash] } :
              AqoState).force_collect_stat)) = true := by
          simp [hf]
        simpa using planner_finish_lock_bracket _ _ _ _ _ hc
  · rcases hkb : st.kb_queries query_hash with _ | row
    · have hR : aqo_planner st prevCtx external_disable query_hash query_string =
          planner_finish { st with cur_classes := st.cur_classes ++ [query_hash] }
            (newClassContext st.aqo_mode { prevCtx with query_hash := query_hash })
            false [PEvent.findQuery query_hash] query_string := by
        simp [aqo_planner, h1.1, h2.1, h2.2, hd, hkb]
      have hupd := planner_finish_any_update
        { st with cur_classes := st.cur_classes ++ [query_hash] }
        (newClassContext st.aqo_mode { prevCtx with query_hash := query_hash })
        false [PEvent.findQuery query_hash] query_string (by simp [isUpdateQuery])
      rw [hR]
      constructor
      · rw [hupd]
        simp [hkb]
      · intro hins
        rw [hupd] at hins
        rcases hins.2 with h | h
        · have hc : (!false && ((newClassContext st.aqo_mode { prevCtx with
              query_hash := query_hash }).adding_query ||
              ({ st with cur_classes := st.cur_classes ++ [query_hash] } :
                AqoState).force_collect_stat)) = true := by
            simp [h]
          simpa using planner_finish_lock_bracket _ _ _ _ _ hc
        · have hf : st.force_collect_stat = true := by simpa using h
          have hc : (!false && ((newClassContext st.aqo_mode { prevCtx with
              query_hash := query_hash }).adding_query ||
              ({ st with cur_classes := st.cur_classes ++ [query_hash] } :
                AqoState).force_collect_stat)) = true := by
            simp [hf]
          simpa using planner_finish_lock_bracket _ _ _ _ _ hc
    · have hev : (aqo_planner st prevCtx external_disable query_hash
          query_string).events.any isUpdateQuery = false := by
        simp [aqo_planner, planner_finish_events, h1.1, h2.1, h2.2, hd, hkb,
              isUpdateQuery, apply_ite (fun l => List.any l isUpdateQuery)]
      refine ⟨?_, ?_⟩
      · simp [hev, hd, hkb]
      · intro hins
        rw [hev] at hins
        simp at hins

/-- Witness for the amended C5: intelligent mode and a brand-new class with
query text present; the event trace holds an update_query call. -/
theorem c5_insert_iff_adding_query_under_lock_witness :
    (aqo_planner
      ⟨AqoMode.intelligent, false, false, false, [], [], fun _ => none⟩
      ⟨0, false, false, 3, false, false, false, false, 0⟩
      false 7 (some "q")).events.any isUpdateQuery = true := by
  have h := c5_insert_iff_adding_query_under_lock
    ⟨AqoMode.intelligent, false, false, false, [], [], fun _ => none⟩
    ⟨0, false, false, 3, false, false, false, false, 0⟩
    false 7 (some "q") (by decide) (by decide)
  exact h.1.mpr ⟨Or.inr rfl, Or.inl (by decide)⟩

/-- C9: registering a new query class with a NULL query text pointer (cached
plans) still inserts the class row — the event trace holds the update_query
call — while the query-text store is skipped entirely: no add_query_text
event appears.  The model is total, so registration completes without
error. -/
theorem c9_null_query_text_class_still_registered
    (st : AqoState) (prevCtx : QueryContext) (external_disable : Bool)
    (query_hash : Int)
    (h1 : (external_disable ||
           ((st.aqo_mode == AqoMode.disabled) && !st.force_collect_stat &&
            !st.aqo_profile_enable)) = false)
    (h2 : (st.deactivated_queries.contains query_hash ||
           st.cur_classes.contains query_hash) = false)
    (hd : st.aqo_mode ≠ AqoMode.disabled)
    (h3 : st.kb_queries query_hash = none)
    (hadd : (aqo_planner st prevCtx external_disable query_hash
               none).ctx.adding_query = true ∨
            st.force_collect_stat = true) :
    (aqo_planner st prevCtx external_disable query_hash none).events.any
      isUpdateQuery = true ∧
    (aqo_planner st prevCtx external_disable query_hash none).events.any
      isAddQueryText = false := by
  simp at h1 h2
  have hR : aqo_planner st prevCtx external_disable query_hash none =
      planner_finish { st with cur_classes := st.cur_classes ++ [query_hash] }
        (newClassContext st.aqo_mode { prevCtx with query_hash := query_hash })
        false [PEvent.findQuery query_hash] none := by
    simp [aqo_planner, h1.1, h2.1, h2.2, hd, h3]
  rw [hR] at hadd ⊢
  have hc : (!false && ((newClassContext st.aqo_mode { prevCtx with
      query_hash := query_hash }).adding_query ||
      ({ st with cur_classes := st.cur_classes ++ [query_hash] } :
        AqoState).force_collect_stat)) = true := by
    rcases hadd with h | h
    · simp at h
      simp [h]
    · have hf : st.force_collect_stat = true := h
      simp [hf]
  rw [planner_finish_events, if_pos hc]
  constructor
  · simp [isUpdateQuery]
  · simp [isAddQueryText]

/-- Witness for C9: intelligent mode, empty knowledge base, NULL query
text; the class row is inserted and no query-text event appears. -/
theorem c9_null_query_text_class_still_registered_witness :
    (aqo_planner
      ⟨AqoMode.intelligent, false, false, false, [], [], fun _ => none⟩
      ⟨0, false, false, 3, false, false, false, false, 0⟩
      false 7 none).events.any isUpdateQuery = true ∧
    (aqo_planner
      ⟨AqoMode.intelligent, false, false, false, [], [], fun _ => none⟩
      ⟨0, false, false, 3, false, false, false, false, 0⟩
      false 7 none).events.any isAddQueryText = false :=
  c9_null_query_text_class_still_registered
    ⟨AqoMode.intelligent, false, false, false, [], [], fun _ => none⟩
    ⟨0, false, false, 3, false, false, false, false, 0⟩
    false 7 (by decide) (by decide) (by decide) rfl (Or.inl (by decide))

/-- C6: in group-count estimation, when load_fss finds a stored row for the
grouped signature, the predicted group count follows the source's guard
(refuse unless the exponentiation is strictly positive); since the stored
target lives in log space and real exponentiation is always positive, the
prediction equals exp(target), and a stored target of log 37 predicts
exactly 37 groups. -/
theorem c6_group_count_is_exp_of_target
    (parent_predicted_cardinality : ℝ) (parent_fss_hash child_predicted_fss : Int)
    (get_grouped_exprs_hash : Int → List Int → Int) (group_exprs : List Int)
    (fspace_hash : Int) (load_fss : Int → Int → Option ℝ) (target : ℝ)
    (h : load_fss fspace_hash
          (get_grouped_exprs_hash
            (if parent_predicted_cardinality > 0 then parent_fss_hash
             else child_predicted_fss) group_exprs) = some target) :
    (predict_num_groups parent_predicted_cardinality parent_fss_hash
        child_predicted_fss get_grouped_exprs_hash group_exprs fspace_hash
        load_fss).1 =
      (if Real.exp target ≤ 0 then -1 else Real.exp target) ∧
    (predict_num_groups parent_predicted_cardinality parent_fss_hash
        child_predicted_fss get_grouped_exprs_hash group_exprs fspace_hash
        load_fss).1 = Real.exp target ∧
    (target = Real.log 37 →
      (predict_num_groups parent_predicted_cardinality parent_fss_hash
          child_predicted_fss get_grouped_exprs_hash group_exprs fspace_hash
          load_fss).1 = 37) := by
  have h0 : (predict_num_groups parent_predicted_cardinality parent_fss_hash
      child_predicted_fss get_grouped_exprs_hash group_exprs fspace_hash
      load_fss).1 = (if Real.exp target ≤ 0 then -1 else Real.exp target) := by
    simp [predict_num_groups, h]
  have h1 : (predict_num_groups parent_predicted_cardinality parent_fss_hash
      child_predicted_fss get_grouped_exprs_hash group_exprs fspace_hash
      load_fss).1 = Real.exp target := by
    rw [h0, if_neg (not_le.mpr (Real.exp_pos target))]
  refine ⟨h0, h1, ?_⟩
  intro ht
  rw [h1, ht, Real.exp_log (by norm_num : (0:ℝ) < 37)]

/-- Witness for C6: a knowledge base that stores log 37 for every signature
predicts 37 groups. -/
theorem c6_group_count_is_exp_of_target_witness :
    (predict_num_groups 1 5 6 (fun c _ => c) [] 0
        (fun _ _ => some (Real.log 37))).1 = 37 :=
  (c6_group_count_is_exp_of_target 1 5 6 (fun c _ => c) [] 0
    (fun _ _ => some (Real.log 37)) (Real.log 37) rfl).2.2 rfl

/-- C7: in group-count estimation, when the subpath's parent relation
carries a valid (positive) predicted cardinality, its stored fss_hash is
reused directly: the outcome does not depend on what the prediction
machinery would compute for the child (fast path), and the grouped
signature combines the parent's stored fss_hash with the grouping
expressions; otherwise the grouped signature is derived from the fss the
prediction machinery computes from the child path's clauses. -/
theorem c7_child_fss_reused_on_fast_path
    (parent_predicted_cardinality : ℝ) (parent_fss_hash : Int)
    (child_fss_a child_fss_b : Int)
    (get_grouped_exprs_hash : Int → List Int → Int) (group_exprs : List Int)
    (fspace_hash : Int) (load_fss : Int → Int → Option ℝ) :
    (parent_predicted_cardinality > 0 →
      predict_num_groups parent_predicted_cardinality parent_fss_hash
          child_fss_a get_grouped_exprs_hash group_exprs fspace_hash load_fss =
        predict_num_groups parent_predicted_cardinality parent_fss_hash
          child_fss_b get_grouped_exprs_hash group_exprs fspace_hash load_fss ∧
      (predict_num_groups parent_predicted_cardinality parent_fss_hash
          child_fss_a get_grouped_exprs_hash group_exprs fspace_hash
          load_fss).2 = get_grouped_exprs_hash parent_fss_hash group_exprs) ∧
    (¬parent_predicted_cardinality > 0 →
      (predict_num_groups parent_predicted_cardinality parent_fss_hash
          child_fss_a get_grouped_exprs_hash group_exprs fspace_hash
          load_fss).2 = get_grouped_exprs_hash child_fss_a group_exprs) := by
  constructor
  · intro hp
    constructor
    · simp only [predict_num_groups, if_pos hp]
    · simp only [predict_num_groups, if_pos hp]
      rcases load_fss fspace_hash (get_grouped_exprs_hash parent_fss_hash
          group_exprs) with _ | t <;> simp
  · intro hp
    simp only [predict_num_groups, if_neg hp]
    rcases load_fss fspace_hash (get_grouped_exprs_hash child_fss_a
        group_exprs) with _ | t <;> simp

/-- Witness for C7: with a positive parent predicted cardinality the grouped
signature is built from the parent's stored fss_hash (here 5). -/
theorem c7_child_fss_reused_on_fast_path_witness :
    (predict_num_groups 1 5 10 (fun c _ => c) [] 0 (fun _ _ => none)).2 = 5 :=
  ((c7_child_fss_reused_on_fast_path 1 5 10 11 (fun c _ => c) [] 0
    (fun _ _ => none)).1 one_pos).2

end Aqo
